import Mathlib

/-
Verification of the retail-insights repository (a three-stage LLM analytics
pipeline over an in-memory DuckDB table) against its design specification.

Shallow embedding conventions:
* Python `str` is Lean `String`; character-level string operations
  (`strip`, `lstrip`, `split`, `rsplit`, `endswith`, substring tests)
  are modelled on `List Char` via `String.data`.
* External collaborators are oracles supplied as function arguments:
  the language model (`invoke`), `json.loads` (`parse`), `json.dumps`
  (`dumps`), the DuckDB engine (`runQuery` and the per-statement results
  used by `basic_profile` / `get_aggregates_for_summary`), and the pandas
  decoders used by `load_file`.
* Python exceptions are `Except String`; a value computed inside a
  `try/except` block appears as an `Except`-valued oracle result, and an
  unguarded raising call propagates its `.error`.
* JSON values decoded by `json.loads` are modelled by the inductive `JVal`
  (numbers as `Rat`); Python dict literals become `JVal.obj` lists.
-/

namespace RetailInsights

/-! ## Python string primitives (on `List Char`) -/

/-- The ASCII whitespace characters recognised by Python `str.strip()`. -/
def isPySpace (c : Char) : Bool :=
  c = ' ' || c = '\t' || c = '\n' || c = '\x0d' || c = '\x0b' || c = '\x0c'

/-- Python `s.strip()`: remove leading and trailing whitespace. -/
def pyStripL (l : List Char) : List Char :=
  ((l.dropWhile isPySpace).reverse.dropWhile isPySpace).reverse

/-- Does the text start with three backticks (Python `startswith("\x60\x60\x60")`)? -/
def fenceHead (l : List Char) : Bool :=
  ['`', '`', '`'].isPrefixOf l

/-- Does the text start with four backticks? -/
def fence4Head (l : List Char) : Bool :=
  ['`', '`', '`', '`'].isPrefixOf l

/-- Python `s.lstrip("\x60")`: drop every leading backtick. -/
def lstripBacktickL (l : List Char) : List Char :=
  l.dropWhile (fun c => c = '`')

/-- Python `s.split("\n", 1)`: text before the first newline, and, when a
newline exists, the text after it. -/
def splitNL1 : List Char → List Char × Option (List Char)
  | [] => ([], none)
  | c :: cs =>
    if c = '\n' then ([], some cs)
    else
      match splitNL1 cs with
      | (a, b) => (c :: a, b)

/-- Scan a REVERSED text for the first occurrence of three backticks and
return what follows it (still reversed).  Because the pattern is three
identical characters, the first occurrence in the reversed text is exactly
the last occurrence in the original, so this implements the right half of
Python `s.rsplit("\x60\x60\x60", 1)` read backwards. -/
def rsplitFenceRev : List Char → Option (List Char)
  | [] => none
  | l@(_ :: rest) => if fenceHead l then some (l.drop 3) else rsplitFenceRev rest

/-- Python `s.rsplit("\x60\x60\x60", 1)[0]`: the text before the last
occurrence of three backticks, or the whole text when there is none. -/
def pyRsplitFenceL (l : List Char) : List Char :=
  match rsplitFenceRev l.reverse with
  | none => l
  | some r => r.reverse

/-- Python substring test `pat in l` for strings, as contiguous-sublist. -/
def containsSubL : List Char → List Char → Bool
  | pat, [] => pat.isEmpty
  | pat, l@(_ :: rest) => pat.isPrefixOf l || containsSubL pat rest

/-- Python `s.endswith(pat)`. -/
def pyEndsWith (s pat : String) : Bool :=
  pat.data.reverse.isPrefixOf s.data.reverse

/-- Python `s.lower()` (ASCII case folding, which covers every name the
repository's heuristics compare). -/
def pyLower (s : String) : String :=
  ⟨s.data.map Char.toLower⟩

/-! ## JSON values (the result type of `json.loads`) -/

/-- A decoded JSON value as produced by Python `json.loads`. -/
inductive JVal where
  | null : JVal
  | bool : Bool → JVal
  | num : Rat → JVal
  | str : String → JVal
  | arr : List JVal → JVal
  | obj : List (String × JVal) → JVal

/-- Key lookup in a decoded JSON object (keys are unique in a Python dict). -/
def lookupPairs (kvs : List (String × JVal)) (k : String) : Option JVal :=
  match kvs with
  | [] => none
  | (k2, v) :: rest => if k2 = k then some v else lookupPairs rest k

/-- Python `v.get(k, d)`: returns the stored value (or the default) when `v`
is a dict, and raises `AttributeError` on any other decoded value. -/
def pyDictGet (v : JVal) (k : String) (d : JVal) : Except String JVal :=
  match v with
  | .obj kvs => .ok ((lookupPairs kvs k).getD d)
  | _ => .error "AttributeError: get"

/-! ## Fence stripping (agents.py lines 52-66 and 142-152) -/

/-- The shared body of the fence-stripping branch: `lstrip` backticks from
the stripped reply, split off the fence line, and drop the closing fence. -/
def fenceBody (st : List Char) : List Char :=
  let stripped := lstripBacktickL st
  let parts := splitNL1 stripped
  let rawJson :=
    match parts.2 with
    | some r => r
    | none => parts.1
  pyRsplitFenceL rawJson

/-- Fence stripping as done in `LanguageToQueryAgent.run`. -/
def l2qStripL (raw : List Char) : List Char :=
  let st := pyStripL raw
  if fenceHead st then fenceBody st else raw

/-- Fence stripping as done in `ValidationAgent.run` (the extra
four-backtick test is a redundant disjunct of the three-backtick one). -/
def validationStripL (raw : List Char) : List Char :=
  let st := pyStripL raw
  if fence4Head st || fenceHead st then fenceBody st else raw

/-- String-level wrapper for the query-generation fence strip. -/
def l2qStrip (raw : String) : String := ⟨l2qStripL raw.data⟩

/-- String-level wrapper for the validation fence strip. -/
def validationStrip (raw : String) : String := ⟨validationStripL raw.data⟩

/-! ## Schema profile (data_access.py `basic_profile`) -/

/-- One entry of the `columns` list of a schema profile. -/
structure ColumnInfo where
  name : String
  type : String
deriving DecidableEq

/-- The schema profile returned by `RetailDataStore.basic_profile`. -/
structure Profile where
  row_count : Option Int
  columns : List ColumnInfo
deriving DecidableEq

/-- `RetailDataStore.basic_profile`: both engine statements are guarded, so
a failing count gives `row_count = None` and a failing `PRAGMA table_info`
gives `columns = []`. -/
def basic_profile (countStar : Except String Int)
    (tableInfo : Except String (List ColumnInfo)) : Profile :=
  { row_count := countStar.toOption
    columns := tableInfo.toOption.getD [] }

/-! ## Agents (agents.py) -/

/-- A role-tagged prompt message sent to the language model. -/
structure Message where
  role : String
  content : String
deriving DecidableEq

/-- System prompt of `LanguageToQueryAgent.run`. -/
def l2qSystemText : String :=
  "You are a senior analytics engineer. Given a business question " ++
  "and the table schema, write a single DuckDB-compatible SQL query " ++
  "against the table named `sales` that best answers the question. " ++
  "RULES:\n" ++
  "- Use the column names EXACTLY as they appear in the schema list.\n" ++
  "- If a column name contains spaces or special characters (for example " ++
  "  \"SKU Code\"), wrap it in double quotes in SQL (e.g. SELECT \"SKU Code\").\n" ++
  "- Do NOT invent new column names. If the question needs a field that " ++
  "is not present in the schema (for example dates or sales amounts), " ++
  "then return a query that selects zero rows and clearly explain in " ++
  "the reasoning which columns are missing.\n" ++
  "Respond in strict JSON with keys: sql, reasoning, confidence (0-1)."

/-- The schema description block of the query-generation human message:
one `- name (type)` line per column, or `(schema unknown)` when the join
is empty (Python `"\n".join(lines) or "(schema unknown)"`). -/
def schemaDesc (p : Profile) : String :=
  let lines := p.columns.map (fun c => "- " ++ c.name ++ " (" ++ c.type ++ ")")
  let joined := String.intercalate "\n" lines
  if joined = "" then "(schema unknown)" else joined

/-- Human message of `LanguageToQueryAgent.run`. -/
def l2qHumanText (question : String) (p : Profile) : String :=
  "Table schema for `sales`:\n" ++ schemaDesc p ++
  "\n\nBusiness question: " ++ question

/-- The prompt message list of `LanguageToQueryAgent.run`. -/
def l2qMessages (question : String) (p : Profile) : List Message :=
  [⟨"system", l2qSystemText⟩, ⟨"human", l2qHumanText question p⟩]

/-- The fallback dict built by `LanguageToQueryAgent.run` when `json.loads`
fails on the fence-stripped reply. -/
def l2qFallback (raw : String) : JVal :=
  .obj [("sql", .str "SELECT * FROM sales LIMIT 0"),
        ("reasoning", .str raw),
        ("confidence", .num (3 / 10))]

/-- Decoding of the model reply in `LanguageToQueryAgent.run`: strip the
optional fence, attempt `json.loads`, fall back on failure. -/
def l2qDecode (parse : String → Option JVal) (raw : String) : JVal :=
  match parse (l2qStrip raw) with
  | some parsed => parsed
  | none => l2qFallback raw

/-- `LanguageToQueryAgent.run`: build the prompt, invoke the model, decode. -/
def languageToQueryRun (invoke : List Message → String)
    (parse : String → Option JVal) (question : String) (p : Profile) : JVal :=
  l2qDecode parse (invoke (l2qMessages question p))

/-- System prompt of `ValidationAgent.run`. -/
def validationSystemText : String :=
  "You are a careful analytics reviewer. You will be given: a business " ++
  "question, the SQL that was executed, a compact result summary, and " ++
  "a high-level dataset profile (schema + row count). " ++
  "First, check whether the TABLE SCHEMA even contains the fields " ++
  "needed to answer the question (for example, dates for YoY or sales " ++
  "amounts for revenue questions). If the schema is missing required " ++
  "columns, clearly say that the dataset cannot support this question " ++
  "and name which columns are missing. Do NOT pretend to answer. " ++
  "Otherwise, assess whether the SQL result directly answers the " ++
  "question; if the result is empty or incomplete, explain that. " ++
  "Respond in strict JSON with keys: is_valid (true/false), " ++
  "confidence (0-1), critique, user_facing_answer."

/-- The schema profile dict as it is embedded into the validation prompt. -/
def profileToJVal (p : Profile) : JVal :=
  .obj [("row_count", match p.row_count with | some n => .num n | none => .null),
        ("columns", .arr (p.columns.map (fun c =>
          .obj [("name", .str c.name), ("type", .str c.type)])))]

/-- The prompt message list of `ValidationAgent.run`; the human message is
the `json.dumps` serialisation of the four inputs. -/
def validationMessages (dumps : JVal → String) (question : String)
    (sql : JVal) (resultSummary : JVal) (p : Profile) : List Message :=
  [⟨"system", validationSystemText⟩,
   ⟨"human", dumps (.obj [("question", .str question), ("sql", sql),
                          ("result_summary", resultSummary),
                          ("profile", profileToJVal p)])⟩]

/-- The fallback dict built by `ValidationAgent.run` when `json.loads`
fails on the fence-stripped reply. -/
def validationFallback (raw : String) : JVal :=
  .obj [("is_valid", .bool false),
        ("confidence", .num 0),
        ("critique", .str ("Could not parse validation response: " ++ raw)),
        ("user_facing_answer", .str "I\x27m not fully confident in this answer.")]

/-- Decoding of the model reply in `ValidationAgent.run`. -/
def validationDecode (parse : String → Option JVal) (raw : String) : JVal :=
  match parse (validationStrip raw) with
  | some parsed => parsed
  | none => validationFallback raw

/-- `ValidationAgent.run`: build the prompt, invoke the model, decode. -/
def validationRun (invoke : List Message → String) (parse : String → Option JVal)
    (dumps : JVal → String) (question : String) (sql : JVal)
    (resultSummary : JVal) (p : Profile) : JVal :=
  validationDecode parse (invoke (validationMessages dumps question sql resultSummary p))

/-- The shape of a DuckDB query result (`fetchdf`): ordered column names
and the rows as plain records. -/
structure QueryResult where
  columns : List String
  rows : List (List (String × JVal))

/-- The compact result-summary dict built by `DataExtractionAgent.run`:
row/column counts, column names, and a preview of at most 20 rows. -/
def execSummary (r : QueryResult) : JVal :=
  .obj [("row_count", .num r.rows.length),
        ("column_count", .num r.columns.length),
        ("columns", .arr (r.columns.map JVal.str)),
        ("preview_rows", .arr ((r.rows.take 20).map JVal.obj))]

/-- `DataExtractionAgent.run`: execute the SQL via the datastore with no
recovery (engine failures propagate); a non-string argument raises in
`conn.execute` just as in Python. -/
def dataExtractionRun (runQuery : String → Except String QueryResult) :
    JVal → Except String JVal
  | .str s => (runQuery s).map execSummary
  | _ => .error "TypeError: execute"

/-! ## Orchestration (orchestration.py `run_qa`) -/

/-- The external collaborators of one Q&A turn: the language model, the
`json` module, and the DuckDB engine (ad-hoc queries plus the two
statements run by `basic_profile`). -/
structure World where
  invoke : List Message → String
  parse : String → Option JVal
  dumps : JVal → String
  runQuery : String → Except String QueryResult
  countStar : Except String Int
  tableInfo : Except String (List ColumnInfo)

/-- The `profile` intermediate of `run_qa`. -/
def qaProfile (w : World) : Profile :=
  basic_profile w.countStar w.tableInfo

/-- The `l2q_output` intermediate of `run_qa`. -/
def qaL2QOutput (w : World) (question : String) : JVal :=
  languageToQueryRun w.invoke w.parse question (qaProfile w)

/-- The default query substituted when the generation output lacks `sql`. -/
def defaultSqlText : String := "SELECT * FROM sales LIMIT 0"

/-- The `sql = l2q_output.get("sql", ...)` step of `run_qa`; `.get` raises
when the decoded generation output is not a dict. -/
def qaSqlE (w : World) (question : String) : Except String JVal :=
  pyDictGet (qaL2QOutput w question) "sql" (.str defaultSqlText)

/-- The fixed fallback answer used when `user_facing_answer` is absent. -/
def noAnswerText : String := "I was not able to derive a confident answer."

/-- The `validation_output` intermediate of `run_qa`. -/
def qaValidationOutput (w : World) (question : String) (sql : JVal)
    (dataOutput : JVal) : JVal :=
  validationRun w.invoke w.parse w.dumps question sql dataOutput (qaProfile w)

/-- `RetailInsightsOrchestrator.run_qa`: the three-stage pipeline.  The
returned trace is the `debug["steps"]` list; on success it holds exactly
the three appended records.  An exception anywhere (engine failure in the
extraction stage, or an `AttributeError` from `.get` on a non-dict decode)
propagates and nothing is returned, exactly as in the Python code. -/
def run_qa (w : World) (question : String)
    (chatHistory : List (String × String)) :
    Except String (JVal × List (String × JVal)) :=
  match qaSqlE w question with
  | .error e => .error e
  | .ok sql =>
    match dataExtractionRun w.runQuery sql with
    | .error e => .error e
    | .ok dataOutput =>
      let vout := qaValidationOutput w question sql dataOutput
      match pyDictGet vout "user_facing_answer" (.str noAnswerText) with
      | .error e => .error e
      | .ok answer =>
        .ok (answer,
          [("language_to_query", qaL2QOutput w question),
           ("data_extraction", dataOutput),
           ("validation", vout)])

/-! ## Data store (data_access.py `load_file`) -/

/-- The error message raised for an unrecognised file extension. -/
def unsupportedMsg : String :=
  "Unsupported file type. Please upload CSV, XLSX, or JSON."

/-- `RetailDataStore.load_file`: dispatch on the lowercased filename's
extension to the matching pandas decoder, then replace the single
registered table.  The pair is (returned DataFrame or raised error,
registered table after the call); a raising branch leaves the previously
registered table `st` untouched. -/
def load_file {α γ : Type} (csvDecode xlsxDecode jsonDecode : γ → Except String α)
    (filename : String) (content : γ) (st : Option α) :
    Except String α × Option α :=
  let nameLower := pyLower filename
  if pyEndsWith nameLower ".csv" then
    match csvDecode content with
    | .ok df => (.ok df, some df)
    | .error e => (.error e, st)
  else if pyEndsWith nameLower ".xlsx" || pyEndsWith nameLower ".xls" then
    match xlsxDecode content with
    | .ok df => (.ok df, some df)
    | .error e => (.error e, st)
  else if pyEndsWith nameLower ".json" then
    match jsonDecode content with
    | .ok df => (.ok df, some df)
    | .error e => (.error e, st)
  else (.error unsupportedMsg, st)

/-! ## Data store aggregates (data_access.py `get_aggregates_for_summary`) -/

/-- The fixed amount-column candidate list, in priority order. -/
def amountCandidates : List String :=
  ["sales", "amount", "revenue", "gmv", "total"]

/-- One amount-candidate test: exact lowercased match or case-insensitive
substring (`original.lower() == candidate or candidate in original.lower()`). -/
def amountMatches (cand orig : String) : Bool :=
  pyLower orig == cand || containsSubL cand.data (pyLower orig).data

/-- Python truthiness of the `amount_col` / `date_col` variables
(`None` and the empty string are falsy). -/
def strTruthy : Option String → Bool
  | none => false
  | some s => !(s == "")

/-- The nested candidate/column loop of the amount heuristic, including the
truthiness test `if amount_col: break` that guards the outer `break`. -/
def amountColLoop (names : List String) : List String → Option String → Option String
  | [], acc => acc
  | cand :: rest, acc =>
    let acc2 :=
      match names.find? (amountMatches cand) with
      | some c => some c
      | none => acc
    if strTruthy acc2 then acc2 else amountColLoop names rest acc2

/-- The amount-column heuristic of `get_aggregates_for_summary`. -/
def detectAmountColumn (names : List String) : Option String :=
  amountColLoop names amountCandidates none

/-- One date-column test: lowercased name contains `date`, or equals
`order_date` / `invoice_date`. -/
def dateMatches (orig : String) : Bool :=
  containsSubL "date".data (pyLower orig).data ||
  pyLower orig == "order_date" || pyLower orig == "invoice_date"

/-- The date-column loop (first matching column wins). -/
def dateColLoop : List String → Option String
  | [] => none
  | orig :: rest => if dateMatches orig then some orig else dateColLoop rest

/-- The date-column heuristic of `get_aggregates_for_summary`. -/
def detectDateColumn (names : List String) : Option String :=
  dateColLoop names

/-- The aggregate bundle dict.  The outer `Option` on `total_sales` and
`monthly_trend` records whether the key is present at all (it is only set
when the guarding columns were detected); the inner `Option`/empty-list
value records the per-field failure fallback. -/
structure Aggregates where
  amount_column : Option String
  total_sales : Option (Option Rat)
  date_column : Option String
  monthly_trend : Option (List (String × Rat))
deriving DecidableEq

/-- `RetailDataStore.get_aggregates_for_summary`.  The opening
`PRAGMA table_info` statement is NOT guarded by a `try/except` (unlike in
`basic_profile`), so its failure propagates as an exception; the sum and
monthly-trend engine calls are each individually guarded, a failure
becoming `None` / `[]` for just that field. -/
def get_aggregates_for_summary
    (tableInfo : Except String (List String))
    (sumQuery : String → Except String Rat)
    (trendQuery : String → String → Except String (List (String × Rat))) :
    Except String Aggregates :=
  match tableInfo with
  | .error e => .error e
  | .ok names =>
    let amountCol := detectAmountColumn names
    let totalSales : Option (Option Rat) :=
      if strTruthy amountCol then
        match amountCol with
        | some c => some (sumQuery c).toOption
        | none => none
      else none
    let dateCol := detectDateColumn names
    let monthlyTrend : Option (List (String × Rat)) :=
      if strTruthy dateCol && strTruthy amountCol then
        match dateCol, amountCol with
        | some d, some a => some ((trendQuery d a).toOption.getD [])
        | _, _ => none
      else none
    .ok { amount_column := amountCol, total_sales := totalSales,
          date_column := dateCol, monthly_trend := monthlyTrend }

/-! ## Further definitions used by the statements -/

/-- A reply consisting of a JSON text `t` wrapped in triple-backtick code
fences, with an optional language tag on the opening fence line. -/
def fenceWrap (tag t : String) : String :=
  "```" ++ tag ++ "\n" ++ t ++ "\n```"

/-- Amount-column selection as the specification words it: for each
candidate in list order, the first column matching it case-insensitively
(exact or substring); the first match wins in list order. -/
def specAmountColumn (names : List String) : Option String :=
  amountCandidates.findSome? (fun cand => names.find? (amountMatches cand))

/-- Date-column selection as the specification words it: the first column
whose lowercased name contains `date` or equals `order_date`/`invoice_date`. -/
def specDateColumn (names : List String) : Option String :=
  names.find? dateMatches

/-- Remove every trailing newline of a string. -/
def dropTrailingNL (s : String) : String :=
  ⟨(s.data.reverse.dropWhile (fun c => c = '\n')).reverse⟩

/-- A concrete stand-in for `json.loads` that accepts exactly the empty
JSON object, ignoring trailing newlines (as `json.loads` ignores trailing
whitespace). -/
def emptyObjParse (s : String) : Option JVal :=
  if dropTrailingNL s = "\x7b\x7d" then some (.obj []) else none

/-- The aggregate bundle built by `get_aggregates_for_summary` once the
column listing has succeeded (the `.ok` branch of the definition, named so
that theorems can speak about its fields). -/
def aggregatesResult (names : List String)
    (sumQ : String → Except String Rat)
    (trendQ : String → String → Except String (List (String × Rat))) :
    Aggregates :=
  { amount_column := detectAmountColumn names
    total_sales :=
      if strTruthy (detectAmountColumn names) then
        match detectAmountColumn names with
        | some c => some (sumQ c).toOption
        | none => none
      else none
    date_column := detectDateColumn names
    monthly_trend :=
      if strTruthy (detectDateColumn names) && strTruthy (detectAmountColumn names) then
        match detectDateColumn names, detectAmountColumn names with
        | some d, some a => some ((trendQ d a).toOption.getD [])
        | _, _ => none
      else none }

/-- A world in which both model replies decode to the empty JSON object:
every stage returns and every decoded output is a dict. -/
def plainObjWorld : World :=
  { invoke := fun _ => "A"
    parse := fun s => if s = "A" then some (.obj []) else none
    dumps := fun _ => "V"
    runQuery := fun _ => .ok ⟨[], []⟩
    countStar := .ok 3
    tableInfo := .ok [⟨"Region", "VARCHAR"⟩]
    }

/-- A world in which the generation reply decodes to the empty JSON object
but the validation reply decodes to a bare JSON string: all three stages
return, yet the decoded validation output is not a dict.  The two calls
are told apart by their human message (`json.dumps` here returns `"V"`). -/
def strValidationWorld : World :=
  { invoke := fun msgs =>
      match msgs with
      | _ :: h :: _ => if h.content = "V" then "B" else "A"
      | _ => "A"
    parse := fun s =>
      if s = "A" then some (.obj [])
      else if s = "B" then some (.str "hi") else none
    dumps := fun _ => "V"
    runQuery := fun _ => .ok ⟨[], []⟩
    countStar := .error "no table"
    tableInfo := .error "no table"
    }

/-! ## String helper lemmas -/

theorem data_append (a b : String) : (a ++ b).data = a.data ++ b.data := by
  cases a
  cases b
  rfl

theorem mk_data (s : String) : String.mk s.data = s := by
  cases s
  rfl

theorem fence4Head_false (l : List Char) (h : fenceHead l = false) :
    fence4Head l = false := by
  rcases l with _ | ⟨c1, _ | ⟨c2, _ | ⟨c3, _ | ⟨c4, rest⟩⟩⟩⟩ <;>
    simp_all [fenceHead, fence4Head, List.isPrefixOf]
  intro e1 e2 e3
  exact absurd e3 (h e1 e2)

theorem pyStripL_eq_self (l : List Char) (c1 c2 : Char)
    (h1 : l.head? = some c1) (hc1 : isPySpace c1 = false)
    (h2 : l.getLast? = some c2) (hc2 : isPySpace c2 = false) :
    pyStripL l = l := by
  have hd : l.dropWhile isPySpace = l := by
    cases l with
    | nil => rfl
    | cons a as =>
      simp only [List.head?_cons, Option.some.injEq] at h1
      rw [List.dropWhile_cons]
      subst h1
      rw [hc1]
      simp
  have hrev : l.reverse.dropWhile isPySpace = l.reverse := by
    cases hr : l.reverse with
    | nil => rfl
    | cons b bs =>
      have hb : l.getLast? = some b := by
        rw [← List.head?_reverse, hr]
        rfl
      rw [hb] at h2
      simp only [Option.some.injEq] at h2
      rw [List.dropWhile_cons]
      subst h2
      rw [hc2]
      simp
  unfold pyStripL
  rw [hd, hrev, List.reverse_reverse]

theorem lstripBacktickL_fence (tagD rest : List Char)
    (htag : ∀ c ∈ tagD, c ≠ '`') :
    lstripBacktickL ('`' :: '`' :: '`' :: (tagD ++ '\n' :: rest)) =
      tagD ++ '\n' :: rest := by
  unfold lstripBacktickL
  rw [List.dropWhile_cons, List.dropWhile_cons, List.dropWhile_cons]
  simp only [decide_True, if_true]
  cases tagD with
  | nil =>
    rw [List.nil_append, List.dropWhile_cons]
    simp
  | cons c cs =>
    have hc : c ≠ '`' := htag c (by simp)
    rw [List.cons_append, List.dropWhile_cons]
    simp [hc]

theorem splitNL1_append (tagD rest : List Char)
    (htag : ∀ c ∈ tagD, c ≠ '\n') :
    splitNL1 (tagD ++ '\n' :: rest) = (tagD, some rest) := by
  induction tagD with
  | nil => simp [splitNL1]
  | cons c cs ih =>
    have hc : c ≠ '\n' := htag c (by simp)
    have ih2 := ih (fun x hx => htag x (by simp [hx]))
    rw [List.cons_append]
    unfold splitNL1
    rw [ih2]
    simp [hc]

theorem pyRsplitFenceL_closing (t : List Char) :
    pyRsplitFenceL (t ++ ['\n', '`', '`', '`']) = t ++ ['\n'] := by
  unfold pyRsplitFenceL
  have hrev : (t ++ ['\n', '`', '`', '`']).reverse = '`' :: '`' :: '`' :: '\n' :: t.reverse := by
    simp
  rw [hrev]
  unfold rsplitFenceRev
  have hf : fenceHead ('`' :: '`' :: '`' :: '\n' :: t.reverse) = true := by
    unfold fenceHead
    simp [List.isPrefixOf]
  rw [hf]
  simp

theorem fenceBody_fenced (tagD t : List Char)
    (htag : ∀ c ∈ tagD, c ≠ '\n' ∧ c ≠ '`') :
    fenceBody ('`' :: '`' :: '`' :: (tagD ++ '\n' :: (t ++ ['\n', '`', '`', '`']))) =
      t ++ ['\n'] := by
  simp only [fenceBody]
  rw [lstripBacktickL_fence tagD _ (fun c hc => (htag c hc).2)]
  rw [splitNL1_append tagD _ (fun c hc => (htag c hc).1)]
  exact pyRsplitFenceL_closing t

theorem fencedText_strip_self (tagD t : List Char) :
    pyStripL ('`' :: '`' :: '`' :: (tagD ++ '\n' :: (t ++ ['\n', '`', '`', '`']))) =
      '`' :: '`' :: '`' :: (tagD ++ '\n' :: (t ++ ['\n', '`', '`', '`'])) := by
  refine pyStripL_eq_self _ '`' '`' rfl rfl ?_ rfl
  rw [← List.head?_reverse]
  simp

theorem fenceHead_fenced (rest : List Char) :
    fenceHead ('`' :: '`' :: '`' :: rest) = true := by
  unfold fenceHead
  simp [List.isPrefixOf]

theorem l2qStripL_fenced (tagD t : List Char)
    (htag : ∀ c ∈ tagD, c ≠ '\n' ∧ c ≠ '`') :
    l2qStripL ('`' :: '`' :: '`' :: (tagD ++ '\n' :: (t ++ ['\n', '`', '`', '`']))) =
      t ++ ['\n'] := by
  simp only [l2qStripL]
  rw [fencedText_strip_self, fenceHead_fenced]
  simp only [if_true]
  exact fenceBody_fenced tagD t htag

theorem validationStripL_fenced (tagD t : List Char)
    (htag : ∀ c ∈ tagD, c ≠ '\n' ∧ c ≠ '`') :
    validationStripL ('`' :: '`' :: '`' :: (tagD ++ '\n' :: (t ++ ['\n', '`', '`', '`']))) =
      t ++ ['\n'] := by
  simp only [validationStripL]
  rw [fencedText_strip_self, fenceHead_fenced]
  simp only [Bool.or_true, if_true]
  exact fenceBody_fenced tagD t htag

theorem l2qStripL_plain (raw : List Char) (h : fenceHead (pyStripL raw) = false) :
    l2qStripL raw = raw := by
  simp only [l2qStripL]
  rw [h]
  simp

theorem validationStripL_plain (raw : List Char)
    (h : fenceHead (pyStripL raw) = false) :
    validationStripL raw = raw := by
  simp only [validationStripL]
  rw [h, fence4Head_false _ h]
  simp

theorem fenceWrap_data (tag t : String) :
    (fenceWrap tag t).data =
      '`' :: '`' :: '`' :: (tag.data ++ '\n' :: (t.data ++ ['\n', '`', '`', '`'])) := by
  unfold fenceWrap
  rw [data_append, data_append, data_append, data_append]
  simp

theorem mk_append_newline (t : String) :
    String.mk (t.data ++ ['\n']) = t ++ "\n" := by
  cases t
  rfl

theorem l2qStrip_fenceWrap (tag t : String)
    (htag : ∀ c ∈ tag.data, c ≠ '\n' ∧ c ≠ '`') :
    l2qStrip (fenceWrap tag t) = t ++ "\n" := by
  unfold l2qStrip
  rw [fenceWrap_data, l2qStripL_fenced tag.data t.data htag]
  exact mk_append_newline t

theorem validationStrip_fenceWrap (tag t : String)
    (htag : ∀ c ∈ tag.data, c ≠ '\n' ∧ c ≠ '`') :
    validationStrip (fenceWrap tag t) = t ++ "\n" := by
  unfold validationStrip
  rw [fenceWrap_data, validationStripL_fenced tag.data t.data htag]
  exact mk_append_newline t

theorem l2qStrip_plain (t : String) (h : fenceHead (pyStripL t.data) = false) :
    l2qStrip t = t := by
  unfold l2qStrip
  rw [l2qStripL_plain t.data h]

theorem validationStrip_plain (t : String)
    (h : fenceHead (pyStripL t.data) = false) :
    validationStrip t = t := by
  unfold validationStrip
  rw [validationStripL_plain t.data h]

/-- C8: for every JSON object text `t`, decoding a model reply consisting
of `t` wrapped in triple-backtick code fences (optionally with a leading
language tag, e.g. `json`, on the fence line) yields the same parsed
structured result as decoding the unfenced reply `t`, in both
`LanguageToQueryAgent.run` and `ValidationAgent.run`: fence wrapping is
semantically invisible to the structured decode.  `json.loads` is the
oracle `parse`, which — like the real decoder — ignores a trailing
newline; `t` being a JSON object text is captured by `parse t = some v`
together with `t` not itself opening with a code fence. -/
theorem c8_fence_wrapping_invisible
    (parse : String → Option JVal)
    (hws : ∀ s : String, parse (s ++ "\n") = parse s)
    (tag t : String) (v : JVal)
    (htag : ∀ c ∈ tag.data, c ≠ '\n' ∧ c ≠ '`')
    (hplain : fenceHead (pyStripL t.data) = false)
    (hjson : parse t = some v) :
    l2qDecode parse (fenceWrap tag t) = l2qDecode parse t
    ∧ validationDecode parse (fenceWrap tag t) = validationDecode parse t := by
  have h1 := l2qStrip_fenceWrap tag t htag
  have h2 := validationStrip_fenceWrap tag t htag
  have h3 := l2qStrip_plain t hplain
  have h4 := validationStrip_plain t hplain
  constructor
  · unfold l2qDecode
    rw [h1, h3, hws t, hjson]
  · unfold validationDecode
    rw [h2, h4, hws t, hjson]

theorem dropTrailingNL_append_newline (s : String) :
    dropTrailingNL (s ++ "\n") = dropTrailingNL s := by
  unfold dropTrailingNL
  rw [data_append]
  simp [List.dropWhile_cons]

theorem emptyObjParse_newline_blind (s : String) :
    emptyObjParse (s ++ "\n") = emptyObjParse s := by
  unfold emptyObjParse
  rw [dropTrailingNL_append_newline]

/-- Witness for C8 at a concrete tag, JSON object text and parse oracle. -/
theorem c8_witness :
    l2qDecode emptyObjParse (fenceWrap "json" "\x7b\x7d") =
      l2qDecode emptyObjParse "\x7b\x7d"
    ∧ validationDecode emptyObjParse (fenceWrap "json" "\x7b\x7d") =
      validationDecode emptyObjParse "\x7b\x7d" :=
  c8_fence_wrapping_invisible emptyObjParse emptyObjParse_newline_blind
    "json" "\x7b\x7d" (.obj []) (by decide) (by decide) (by rfl)

/-- C2: for every model reply string whose fence-stripped body is not
valid JSON (the `json.loads` oracle `parse` returns no value on it),
`LanguageToQueryAgent.run` returns exactly the fallback object: the
zero-row query `SELECT * FROM sales LIMIT 0` over the sales table,
reasoning equal to the raw reply text, and confidence exactly 0.3. -/
theorem c2_l2q_malformed_fallback
    (invoke : List Message → String) (parse : String → Option JVal)
    (question : String) (p : Profile) (raw : String)
    (hreply : invoke (l2qMessages question p) = raw)
    (hbad : parse (l2qStrip raw) = none) :
    languageToQueryRun invoke parse question p =
      .obj [("sql", .str "SELECT * FROM sales LIMIT 0"),
            ("reasoning", .str raw),
            ("confidence", .num (3 / 10))] := by
  unfold languageToQueryRun l2qDecode
  rw [hreply, hbad]
  rfl

/-- Witness for C2 at a concrete reply and parse oracle. -/
theorem c2_witness :
    languageToQueryRun (fun _ => "not json") (fun _ => none) "q" ⟨none, []⟩ =
      .obj [("sql", .str "SELECT * FROM sales LIMIT 0"),
            ("reasoning", .str "not json"),
            ("confidence", .num (3 / 10))] :=
  c2_l2q_malformed_fallback (fun _ => "not json") (fun _ => none)
    "q" ⟨none, []⟩ "not json" rfl rfl

/-- C3: for every model reply string whose fence-stripped body is not
valid JSON, `ValidationAgent.run` returns `is_valid = false`,
`confidence = 0.0`, and the fixed low-confidence user-facing answer
string; the turn does not fail (the agent returns a value rather than
raising). -/
theorem c3_validation_malformed_fallback
    (invoke : List Message → String) (parse : String → Option JVal)
    (dumps : JVal → String) (question : String) (sql : JVal)
    (resultSummary : JVal) (p : Profile) (raw : String)
    (hreply : invoke (validationMessages dumps question sql resultSummary p) = raw)
    (hbad : parse (validationStrip raw) = none) :
    validationRun invoke parse dumps question sql resultSummary p =
      .obj [("is_valid", .bool false),
            ("confidence", .num 0),
            ("critique", .str ("Could not parse validation response: " ++ raw)),
            ("user_facing_answer", .str "I\x27m not fully confident in this answer.")] := by
  unfold validationRun validationDecode
  rw [hreply, hbad]
  rfl

/-- Witness for C3 at a concrete reply and parse oracle. -/
theorem c3_witness :
    validationRun (fun _ => "oops") (fun _ => none) (fun _ => "d")
        "q" (.str "SELECT 1") (.obj []) ⟨none, []⟩ =
      .obj [("is_valid", .bool false),
            ("confidence", .num 0),
            ("critique", .str ("Could not parse validation response: " ++ "oops")),
            ("user_facing_answer", .str "I\x27m not fully confident in this answer.")] :=
  c3_validation_malformed_fallback (fun _ => "oops") (fun _ => none) (fun _ => "d")
    "q" (.str "SELECT 1") (.obj []) ⟨none, []⟩ "oops" rfl rfl

/-- C9: for every question, every datastore/model/json behavior (the whole
`World`), `run_qa` returns an identical result for any two values of its
`chat_history` argument: the history is never used as input to the
query-generation, execution, or validation stages, so each question is
answered independently of prior turns. -/
theorem c9_chat_history_independent (w : World) (question : String)
    (h1 h2 : List (String × String)) :
    run_qa w question h1 = run_qa w question h2 := rfl

/-! ## C4: load_file extension gate -/

theorem load_file_fst_indep {α γ : Type}
    (csvD xlsxD jsonD : γ → Except String α) (f : String) (c : γ)
    (st st' : Option α) :
    (load_file csvD xlsxD jsonD f c st).1 = (load_file csvD xlsxD jsonD f c st').1 := by
  simp only [load_file]
  split_ifs
  · cases csvD c <;> rfl
  · cases xlsxD c <;> rfl
  · cases jsonD c <;> rfl
  · rfl

theorem load_file_ok_snd {α γ : Type}
    (csvD xlsxD jsonD : γ → Except String α) (f : String) (c : γ)
    (st : Option α) (t : α)
    (h : (load_file csvD xlsxD jsonD f c st).1 = .ok t) :
    (load_file csvD xlsxD jsonD f c st).2 = some t := by
  simp only [load_file] at h ⊢
  split_ifs at h ⊢
  · cases hc : csvD c <;> simp_all
  · cases hc : xlsxD c <;> simp_all
  · cases hc : jsonD c <;> simp_all

/-- C4 counterexample: the file `report.xls` does not end in `.csv`,
`.xlsx` or `.json`, yet `load_file` does not fail with the
unsupported-format error — it dispatches to the Excel decoder and
registers the decoded table, refuting the claim that only those three
extensions are accepted. -/
theorem c4_counterexample :
    (pyEndsWith "report.xls" ".csv" = false
      ∧ pyEndsWith "report.xls" ".xlsx" = false
      ∧ pyEndsWith "report.xls" ".json" = false)
    ∧ load_file (fun _ : Unit => .error "") (fun _ => .ok (0 : Nat))
        (fun _ => .error "") "report.xls" () none = (.ok 0, some 0) := by
  exact ⟨by decide, by rfl⟩

/-- C4 (amended): for every uploaded file whose lowercased name does not
end in `.csv`, `.xlsx`, `.xls`, or `.json`, `load_file` fails with the
unsupported-format error and no table is (even partially) registered: the
previously loaded table `st` is returned unchanged.  Exactly these four
suffixes, matched case-insensitively, are accepted. -/
theorem c4_unsupported_extension_rejected {α γ : Type}
    (csvD xlsxD jsonD : γ → Except String α)
    (filename : String) (content : γ) (st : Option α)
    (hcsv : pyEndsWith (pyLower filename) ".csv" = false)
    (hxlsx : pyEndsWith (pyLower filename) ".xlsx" = false)
    (hxls : pyEndsWith (pyLower filename) ".xls" = false)
    (hjson : pyEndsWith (pyLower filename) ".json" = false) :
    load_file csvD xlsxD jsonD filename content st = (.error unsupportedMsg, st) := by
  simp only [load_file]
  rw [hcsv, hxlsx, hxls, hjson]
  rfl

/-- Witness for C4 at a concrete rejected filename. -/
theorem c4_witness :
    load_file (fun _ : Unit => .ok (0 : Nat)) (fun _ => .ok 0) (fun _ => .ok 0)
      "notes.txt" () (some 7) = (.error unsupportedMsg, some 7) :=
  c4_unsupported_extension_rejected (fun _ : Unit => .ok (0 : Nat))
    (fun _ => .ok 0) (fun _ => .ok 0) "notes.txt" () (some 7)
    (by decide) (by decide) (by decide) (by decide)

/-- C5: after a second successful `load_file`, the registered table is
exactly the table decoded from the newly uploaded file: the single
in-memory table is replaced, not augmented, so no row of the previously
loaded table is queryable afterward.  The second conjunct shows the new
table is what loading the second file into a fresh (empty) store yields,
i.e. it carries nothing over from the first upload. -/
theorem c5_reupload_replaces {α γ : Type}
    (csvD xlsxD jsonD : γ → Except String α)
    (f1 : String) (c1 : γ) (f2 : String) (c2 : γ) (st0 : Option α) (t1 t2 : α)
    (h1 : (load_file csvD xlsxD jsonD f1 c1 st0).1 = .ok t1)
    (h2 : (load_file csvD xlsxD jsonD f2 c2
            (load_file csvD xlsxD jsonD f1 c1 st0).2).1 = .ok t2) :
    (load_file csvD xlsxD jsonD f2 c2 (load_file csvD xlsxD jsonD f1 c1 st0).2).2 = some t2
    ∧ (load_file csvD xlsxD jsonD f2 c2 none).1 = .ok t2 := by
  constructor
  · exact load_file_ok_snd csvD xlsxD jsonD f2 c2 _ t2 h2
  · rw [load_file_fst_indep csvD xlsxD jsonD f2 c2 none
          (load_file csvD xlsxD jsonD f1 c1 st0).2]
    exact h2

/-- Witness for C5 at two concrete successful uploads. -/
theorem c5_witness :
    (load_file (fun n : Nat => .ok n) (fun _ => .ok 0) (fun _ => .ok 0)
      "b.csv" 2 (load_file (fun n : Nat => .ok n) (fun _ => .ok 0)
        (fun _ => .ok 0) "a.csv" 1 none).2).2 = some 2
    ∧ (load_file (fun n : Nat => .ok n) (fun _ => .ok 0) (fun _ => .ok 0)
        "b.csv" 2 none).1 = .ok 2 :=
  c5_reupload_replaces (fun n : Nat => .ok n) (fun _ => .ok 0) (fun _ => .ok 0)
    "a.csv" 1 "b.csv" 2 none 1 2 rfl rfl

/-! ## C6: column-detection heuristics -/

theorem amountMatches_ne_empty (cand orig : String) (hc : cand.data ≠ [])
    (h : amountMatches cand orig = true) : orig ≠ "" := by
  intro horig
  subst horig
  unfold amountMatches at h
  rw [Bool.or_eq_true] at h
  rcases h with h | h
  · rw [beq_iff_eq] at h
    exact hc (by rw [← h]; rfl)
  · have hred : containsSubL cand.data (pyLower "").data = cand.data.isEmpty := rfl
    rw [hred] at h
    exact hc (List.isEmpty_iff.mp h)

theorem amountColLoop_eq_findSome (names : List String) (cands : List String)
    (hc : ∀ cand ∈ cands, cand.data ≠ []) :
    amountColLoop names cands none =
      cands.findSome? (fun cand => names.find? (amountMatches cand)) := by
  induction cands with
  | nil => rfl
  | cons cand rest ih =>
    have hcand : cand.data ≠ [] := hc cand (by simp)
    have hrest : ∀ x ∈ rest, x.data ≠ [] := fun x hx => hc x (by simp [hx])
    simp only [amountColLoop, List.findSome?_cons]
    cases hf : names.find? (amountMatches cand) with
    | some c =>
      have hm : amountMatches cand c = true := List.find?_some hf
      have hcne : c ≠ "" := amountMatches_ne_empty cand c hcand hm
      simp [strTruthy, hcne]
    | none =>
      simp [strTruthy, ih hrest]

theorem dateColLoop_eq_find (names : List String) :
    dateColLoop names = names.find? dateMatches := by
  induction names with
  | nil => rfl
  | cons n rest ih =>
    simp only [dateColLoop, List.find?_cons]
    cases hd : dateMatches n <;> simp [hd, ih]

/-- C6: the heuristic column detection of `get_aggregates_for_summary`,
applied to the column list `["Region", "Order Date", "Total Sales"]`,
resolves the amount column to `"Total Sales"` and the date column to
`"Order Date"`; in general the amount column is the first column matching
(case-insensitive substring or exact match) any candidate in list order
`sales, amount, revenue, gmv, total` (first match wins in list order),
and the date column is the first column whose lowercased name contains
`date` or equals `order_date`/`invoice_date`. -/
theorem c6_column_heuristics :
    detectAmountColumn ["Region", "Order Date", "Total Sales"] = some "Total Sales"
    ∧ detectDateColumn ["Region", "Order Date", "Total Sales"] = some "Order Date"
    ∧ (∀ names : List String, detectAmountColumn names = specAmountColumn names)
    ∧ (∀ names : List String, detectDateColumn names = specDateColumn names) := by
  refine ⟨by decide, by decide, ?_, ?_⟩
  · intro names
    exact amountColLoop_eq_findSome names amountCandidates (by decide)
  · intro names
    exact dateColLoop_eq_find names

/-! ## C1: best-effort aggregates -/

theorem amountColLoop_ne_empty (names : List String) (cands : List String)
    (acc : Option String) (hc : ∀ cand ∈ cands, cand.data ≠ [])
    (hacc : ∀ s, acc = some s → s ≠ "") (c : String)
    (h : amountColLoop names cands acc = some c) : c ≠ "" := by
  induction cands generalizing acc with
  | nil => exact hacc c h
  | cons cand rest ih =>
    have hcand : cand.data ≠ [] := hc cand (by simp)
    have hrest : ∀ x ∈ rest, x.data ≠ [] := fun x hx => hc x (by simp [hx])
    simp only [amountColLoop] at h
    cases hf : names.find? (amountMatches cand) with
    | some x =>
      have hm : amountMatches cand x = true := List.find?_some hf
      have hx : x ≠ "" := amountMatches_ne_empty cand x hcand hm
      rw [hf] at h
      simp [strTruthy, hx] at h
      rw [← h]
      exact hx
    | none =>
      rw [hf] at h
      cases ht : strTruthy acc with
      | true =>
        rw [ht] at h
        simp at h
        exact hacc c h
      | false =>
        rw [ht] at h
        simp at h
        exact ih acc hrest hacc h

theorem detectAmountColumn_ne_empty (names : List String) (c : String)
    (h : detectAmountColumn names = some c) : c ≠ "" :=
  amountColLoop_ne_empty names amountCandidates none (by decide)
    (fun s hs => by simp at hs) c h

theorem dateMatches_ne_empty (orig : String) (h : dateMatches orig = true) :
    orig ≠ "" := by
  intro horig
  rw [horig] at h
  exact absurd h (by decide)

theorem detectDateColumn_ne_empty (names : List String) (d : String)
    (h : detectDateColumn names = some d) : d ≠ "" := by
  have hfind : names.find? dateMatches = some d := by
    rw [← dateColLoop_eq_find]
    exact h
  exact dateMatches_ne_empty d (List.find?_some hfind)

theorem get_aggregates_ok_eq (names : List String)
    (sumQ : String → Except String Rat)
    (trendQ : String → String → Except String (List (String × Rat))) :
    get_aggregates_for_summary (.ok names) sumQ trendQ =
      .ok (aggregatesResult names sumQ trendQ) := rfl

/-- C1 counterexample: when the opening `PRAGMA table_info` statement
fails (for example because no table has been loaded yet), the call aborts
with that exception instead of returning a bundle — refuting "the call
never aborts the whole bundle by raising an exception, regardless of the
state of the loaded table". -/
theorem c1_counterexample :
    get_aggregates_for_summary
      (.error "Catalog Error: Table with name sales does not exist!")
      (fun _ => .ok 0) (fun _ _ => .ok []) =
      .error "Catalog Error: Table with name sales does not exist!" := rfl

/-- C1 (amended): provided the opening column listing (`PRAGMA
table_info`) succeeds, each derived computation (amount-column sum,
monthly trend) is independently best-effort: the call always returns a
bundle, a failing sum sets `total_sales` to null, a failing trend query
sets `monthly_trend` to the empty list, and changing the sum (resp.
trend) oracle alters no field other than `total_sales`
(resp. `monthly_trend`). -/
theorem c1_aggregates_best_effort
    (names : List String)
    (sumQ sumQ' : String → Except String Rat)
    (trendQ trendQ' : String → String → Except String (List (String × Rat))) :
    (∃ b, get_aggregates_for_summary (.ok names) sumQ trendQ = .ok b)
    ∧ (∀ b c, get_aggregates_for_summary (.ok names) sumQ trendQ = .ok b →
        b.amount_column = some c → (sumQ c).toOption = none →
        b.total_sales = some none)
    ∧ (∀ b c d, get_aggregates_for_summary (.ok names) sumQ trendQ = .ok b →
        b.amount_column = some c → b.date_column = some d →
        (trendQ d c).toOption = none →
        b.monthly_trend = some [])
    ∧ (∀ b b', get_aggregates_for_summary (.ok names) sumQ trendQ = .ok b →
        get_aggregates_for_summary (.ok names) sumQ' trendQ = .ok b' →
        b.amount_column = b'.amount_column ∧ b.date_column = b'.date_column
          ∧ b.monthly_trend = b'.monthly_trend)
    ∧ (∀ b b', get_aggregates_for_summary (.ok names) sumQ trendQ = .ok b →
        get_aggregates_for_summary (.ok names) sumQ trendQ' = .ok b' →
        b.amount_column = b'.amount_column ∧ b.date_column = b'.date_column
          ∧ b.total_sales = b'.total_sales) := by
  refine ⟨⟨aggregatesResult names sumQ trendQ, get_aggregates_ok_eq names sumQ trendQ⟩,
    ?_, ?_, ?_, ?_⟩
  · intro b c h hac hsum
    rw [get_aggregates_ok_eq] at h
    have hb := Except.ok.inj h
    subst hb
    simp only [aggregatesResult] at hac ⊢
    have hcne : c ≠ "" := detectAmountColumn_ne_empty names c hac
    rw [hac]
    simp [strTruthy, hcne, hsum]
  · intro b c d h hac hdc htrend
    rw [get_aggregates_ok_eq] at h
    have hb := Except.ok.inj h
    subst hb
    simp only [aggregatesResult] at hac hdc ⊢
    have hcne : c ≠ "" := detectAmountColumn_ne_empty names c hac
    have hdne : d ≠ "" := detectDateColumn_ne_empty names d hdc
    rw [hac, hdc]
    simp [strTruthy, hcne, hdne, htrend]
  · intro b b' h h'
    rw [get_aggregates_ok_eq] at h h'
    have hb := Except.ok.inj h
    have hb' := Except.ok.inj h'
    subst hb
    subst hb'
    exact ⟨rfl, rfl, rfl⟩
  · intro b b' h h'
    rw [get_aggregates_ok_eq] at h h'
    have hb := Except.ok.inj h
    have hb' := Except.ok.inj h'
    subst hb
    subst hb'
    exact ⟨rfl, rfl, rfl⟩

/-- Witness for C1 at a concrete column list with failing sum and trend
oracles: the call still returns a bundle, with a null total and an empty
trend. -/
theorem c1_witness :
    (aggregatesResult ["Order Date", "Total Sales"]
        (fun _ => .error "boom") (fun _ _ => .error "boom")).total_sales = some none
    ∧ (aggregatesResult ["Order Date", "Total Sales"]
        (fun _ => .error "boom") (fun _ _ => .error "boom")).monthly_trend = some [] := by
  refine ⟨?_, ?_⟩
  · exact (c1_aggregates_best_effort ["Order Date", "Total Sales"]
      (fun _ => .error "boom") (fun _ => .ok 5)
      (fun _ _ => .error "boom") (fun _ _ => .ok [])).2.1
      (aggregatesResult ["Order Date", "Total Sales"]
        (fun _ => .error "boom") (fun _ _ => .error "boom"))
      "Total Sales" rfl (by decide) rfl
  · exact (c1_aggregates_best_effort ["Order Date", "Total Sales"]
      (fun _ => .error "boom") (fun _ => .ok 5)
      (fun _ _ => .error "boom") (fun _ _ => .ok [])).2.2.1
      (aggregatesResult ["Order Date", "Total Sales"]
        (fun _ => .error "boom") (fun _ _ => .error "boom"))
      "Total Sales" "Order Date" rfl (by decide) (by decide) rfl

/-! ## C7 and C10: orchestration -/

/-- C7 counterexample: in `strValidationWorld` all three pipeline stages
return (generation decodes to a dict, execution succeeds, validation
decodes to the JSON string `"hi"`), yet `run_qa` raises `AttributeError`
at `validation_output.get` and returns neither an answer nor a debug
trace — refuting the claim for turns whose validation output is valid
JSON but not an object. -/
theorem c7_counterexample :
    qaSqlE strValidationWorld "q" = .ok (.str defaultSqlText)
    ∧ dataExtractionRun strValidationWorld.runQuery (.str defaultSqlText) =
        .ok (execSummary ⟨[], []⟩)
    ∧ qaValidationOutput strValidationWorld "q" (.str defaultSqlText)
        (execSummary ⟨[], []⟩) = .str "hi"
    ∧ run_qa strValidationWorld "q" [] = .error "AttributeError: get" :=
  ⟨rfl, rfl, rfl, rfl⟩

/-- C7 (amended): for every Q&A turn in which all three pipeline stages
return and the validation stage's decoded output is a JSON object,
`run_qa` produces a debug trace containing exactly three records in the
fixed order `language_to_query`, `data_extraction`, `validation`, each
holding that stage's raw output, and the returned answer equals the
validation output's `user_facing_answer` value when that key is present
and the fixed fallback string when it is absent. -/
theorem c7_trace_and_answer
    (w : World) (question : String) (hist : List (String × String))
    (sql dataOutput : JVal) (kvs : List (String × JVal))
    (hsql : qaSqlE w question = .ok sql)
    (hexec : dataExtractionRun w.runQuery sql = .ok dataOutput)
    (hobj : qaValidationOutput w question sql dataOutput = .obj kvs) :
    run_qa w question hist = .ok
      ((lookupPairs kvs "user_facing_answer").getD (.str noAnswerText),
       [("language_to_query", qaL2QOutput w question),
        ("data_extraction", dataOutput),
        ("validation", .obj kvs)])
    ∧ (∀ v, lookupPairs kvs "user_facing_answer" = some v →
        (lookupPairs kvs "user_facing_answer").getD (.str noAnswerText) = v)
    ∧ (lookupPairs kvs "user_facing_answer" = none →
        (lookupPairs kvs "user_facing_answer").getD (.str noAnswerText) =
          .str noAnswerText) := by
  refine ⟨?_, ?_, ?_⟩
  · simp only [run_qa, hsql, hexec, hobj, pyDictGet]
  · intro v hv
    rw [hv]
    rfl
  · intro hv
    rw [hv]
    rfl

/-- Witness for C7 at a concrete world whose validation output is the
empty JSON object (so the fallback answer is returned). -/
theorem c7_witness :
    run_qa plainObjWorld "q" [] = .ok
      ((lookupPairs [] "user_facing_answer").getD (.str noAnswerText),
       [("language_to_query", qaL2QOutput plainObjWorld "q"),
        ("data_extraction", execSummary ⟨[], []⟩),
        ("validation", .obj [])]) :=
  (c7_trace_and_answer plainObjWorld "q" [] (.str defaultSqlText)
    (execSummary ⟨[], []⟩) [] rfl rfl rfl).1

/-- C10: for every Q&A turn in which the query-generation stage returns a
JSON object lacking the `sql` key, `run_qa` substitutes the default
zero-row query `SELECT * FROM sales LIMIT 0` for the execution stage, so
the turn proceeds through execution and validation rather than failing on
the missing key. -/
theorem c10_missing_sql_default
    (w : World) (question : String) (hist : List (String × String))
    (kvs : List (String × JVal)) (dataOutput answer : JVal)
    (hl2q : qaL2QOutput w question = .obj kvs)
    (hnokey : lookupPairs kvs "sql" = none)
    (hexec : dataExtractionRun w.runQuery (.str defaultSqlText) = .ok dataOutput)
    (hans : pyDictGet (qaValidationOutput w question (.str defaultSqlText) dataOutput)
        "user_facing_answer" (.str noAnswerText) = .ok answer) :
    run_qa w question hist = .ok
      (answer,
       [("language_to_query", .obj kvs),
        ("data_extraction", dataOutput),
        ("validation", qaValidationOutput w question (.str defaultSqlText) dataOutput)]) := by
  have hsql : qaSqlE w question = .ok (.str defaultSqlText) := by
    unfold qaSqlE
    rw [hl2q]
    simp [pyDictGet, hnokey]
  simp only [run_qa, hsql, hexec, hans, hl2q]

/-- Witness for C10 at a concrete world whose generation output is the
empty JSON object (no `sql` key). -/
theorem c10_witness :
    run_qa plainObjWorld "q" [] = .ok
      (.str noAnswerText,
       [("language_to_query", .obj []),
        ("data_extraction", execSummary ⟨[], []⟩),
        ("validation", qaValidationOutput plainObjWorld "q" (.str defaultSqlText)
          (execSummary ⟨[], []⟩))]) :=
  c10_missing_sql_default plainObjWorld "q" [] [] (execSummary ⟨[], []⟩)
    (.str noAnswerText) rfl rfl rfl rfl

end RetailInsights
